import Mathlib

set_option maxRecDepth 8000

/-!
A verification development for the TLE (Two-Line Element) ingestion pipeline
of `src/orbit_propagation.py`.  The functions `parse_tle_data` (parsing plus
attribute derivation) and `to_space_object` (catalog assembly) are embedded
shallowly below.

Modelling conventions:
* Python strings are `String` / `List Char`; slicing, stripping and splitting
  are reimplemented structurally (`pySlice`, `pyStrip`, `splitNl`) so that all
  definitions reduce in the kernel.  `str.strip` is modelled on the six ASCII
  whitespace characters Python strips; exotic Unicode whitespace is out of the
  modelled input alphabet.
* Python `float` values and arithmetic are idealised as exact rationals `ℚ`
  (decimal literals denote the written rational, arithmetic is exact, no
  rounding/underflow/`inf`/`nan`, no `_` digit separators in numeric strings);
  `int(...)`/`float(...)` become `pyInt`/`pyFloat : List Char → Option _`,
  returning `none` exactly where Python raises `ValueError` on the modelled
  alphabet.
* The real-valued semi-major-axis / altitude derivation (a cube root) lives in
  `ℝ` via `Real.rpow`; the parsed record keeps the mean motion, of which the
  stored altitude float is a function (`sat_altitude`).
* `datetime(year,1,1) + timedelta(days = d-1)` is modelled by a proleptic
  Gregorian ordinal (`yearOrdinal`, Python's `date.toordinal` convention) and
  the `datetime` range check `epochOk`; an out-of-range result models the
  `OverflowError` Python raises, which the parser's `except` catches.
* The `except Exception` handler of `parse_tle_data` corresponds to
  `parse_triplet` returning `none`: every failure point inside the `try`
  block (`int`/`float` conversion errors, the `ZeroDivisionError` from the
  semi-major-axis division when the converted mean motion is zero, and the
  epoch overflow) maps to a `none` outcome for that triplet only.
-/

/-- The six ASCII characters removed by Python's default `str.strip`. -/
def isPySpace (c : Char) : Bool :=
  c = ' ' || c = '\t' || c = '\n' || c = '\r' || c = '\x0b' || c = '\x0c'

/-- Python `str.strip()` on a character list. -/
def pyStrip (l : List Char) : List Char :=
  ((l.dropWhile isPySpace).reverse.dropWhile isPySpace).reverse

/-- Python `str.split('\n')`: split on every newline, keeping empty pieces. -/
def splitNl : List Char → List (List Char)
  | [] => [[]]
  | '\n' :: rest => [] :: splitNl rest
  | c :: rest =>
    match splitNl rest with
    | [] => [[c]]
    | h :: t => (c :: h) :: t

/-- Python slice `s[a:b]` for `0 ≤ a ≤ b` (clamped at the end of the string). -/
def pySlice (l : List Char) (a b : Nat) : List Char :=
  (l.drop a).take (b - a)

/-- Numeric value of a digit string (most significant digit first). -/
def digitsVal (l : List Char) : Nat :=
  l.foldl (fun acc c => 10 * acc + (c.toNat - '0'.toNat)) 0

/-- Nonempty and all decimal digits. -/
def allDigits (l : List Char) : Bool :=
  !l.isEmpty && l.all Char.isDigit

/-- Sign-and-digits integer syntax (Python `int` after stripping). -/
def pyIntCore : List Char → Option Int
  | '+' :: ds => if allDigits ds then some (digitsVal ds : Int) else none
  | '-' :: ds => if allDigits ds then some (-(digitsVal ds : Int)) else none
  | ds => if allDigits ds then some (digitsVal ds : Int) else none

/-- Python `int(s)`: strip whitespace, then optional sign and digits. -/
def pyInt (l : List Char) : Option Int :=
  pyIntCore (pyStrip l)

/-- Unsigned decimal mantissa: `digits`, `digits.`, `digits.digits`, `.digits`. -/
def parseMantissa (l : List Char) : Option ℚ :=
  let ip := l.takeWhile Char.isDigit
  match l.dropWhile Char.isDigit with
  | [] => if ip.isEmpty then none else some (digitsVal ip : ℚ)
  | '.' :: rest2 =>
    let fp := rest2.takeWhile Char.isDigit
    if (rest2.dropWhile Char.isDigit).isEmpty && (!ip.isEmpty || !fp.isEmpty) then
      some ((digitsVal ip : ℚ) + (digitsVal fp : ℚ) / (10 : ℚ) ^ fp.length)
    else none
  | _ => none

/-- Split a numeric literal at the first `e`/`E`, if any. -/
def splitOnE : List Char → List Char × Option (List Char)
  | [] => ([], none)
  | c :: rest =>
    if c = 'e' || c = 'E' then ([], some rest)
    else
      match splitOnE rest with
      | (m, e) => (c :: m, e)

/-- Optional leading sign wrapped around an unsigned parser. -/
def pySigned (f : List Char → Option ℚ) : List Char → Option ℚ
  | '+' :: rest => f rest
  | '-' :: rest => (f rest).map Neg.neg
  | l => f l

/-- Float syntax after stripping: signed mantissa with optional exponent. -/
def pyFloatCore (l : List Char) : Option ℚ :=
  match splitOnE l with
  | (m, none) => pySigned parseMantissa m
  | (m, some e) =>
    match pySigned parseMantissa m, pyIntCore e with
    | some mv, some ev => some (mv * (10 : ℚ) ^ ev)
    | _, _ => none

/-- Python `float(s)` on the modelled alphabet, as an exact rational. -/
def pyFloat (l : List Char) : Option ℚ :=
  pyFloatCore (pyStrip l)

/-- Does `needle` occur at the start of `hay`? (used for Python `in`). -/
def leadsWith : List Char → List Char → Bool
  | [], _ => true
  | _ :: _, [] => false
  | a :: as, b :: bs => a = b && leadsWith as bs

/-- Python substring test `needle in hay` (contiguous occurrence). -/
def containsSub : List Char → List Char → Bool
  | [], needle => needle.isEmpty
  | c :: rest, needle => leadsWith needle (c :: rest) || containsSub rest needle

/-- ASCII lower-casing, Python `str.lower` on the modelled alphabet. -/
def lowerChar (c : Char) : Char :=
  if 'A' ≤ c && c ≤ 'Z' then Char.ofNat (c.toNat + 32) else c

/-- Python `name.lower()`. -/
def pyLower (l : List Char) : List Char :=
  l.map lowerChar

/-- Two-digit year pivot from line 129 of the source:
`epoch_year + 2000 if epoch_year < 57 else epoch_year + 1900`. -/
def resolveYear (y : Int) : Int :=
  if y < 57 then y + 2000 else y + 1900

/-- Python `date(y,1,1).toordinal()`: days from 0001-01-01 (= day 1) in the
proleptic Gregorian calendar; used to model `datetime` arithmetic. -/
def yearOrdinal (y : Int) : Int :=
  1 + 365 * (y - 1) + (y - 1) / 4 - (y - 1) / 100 + (y - 1) / 400

/-- Days (fractional) from 0001-01-01T00:00 of
`datetime(year,1,1) + timedelta(days = eday - 1)`. -/
def epochDays (year : Int) (eday : ℚ) : ℚ :=
  ((yearOrdinal year : Int) : ℚ) - 1 + (eday - 1)

/-- The `datetime` construction and addition succeed without raising:
`year` constructible and the shifted instant inside `datetime`'s range
(idealised to whole-day resolution at the upper boundary). -/
def epochOk (year : Int) (eday : ℚ) : Bool :=
  decide (1 ≤ year) && decide (year ≤ 9999) &&
    decide (0 ≤ epochDays year eday) && decide (epochDays year eday < 3652059)

/-- The debris-token table from line 149 of the source. -/
def debrisTokens : List String :=
  ["deb", "debris", "r/b", "rocket"]

/-- `any(debris_cat in name.lower() for debris_cat in [...])`. -/
def is_debris (name : List Char) : Bool :=
  debrisTokens.any (fun t => containsSub (pyLower name) t.data)

/-- `"debris" if is_debris else "satellite"`. -/
def object_class (name : List Char) : String :=
  if is_debris name then "debris" else "satellite"

/-- One parsed satellite dictionary (the record built at lines 156-168).
The `epoch` ISO string is represented by the instant `epoch_days` it denotes;
the `altitude` float entry is the function `sat_altitude` of the stored
`mean_motion` (see below), kept out of the record so the record stays
computable. -/
structure Satellite where
  name : String
  norad_id : String
  int_designator : String
  epoch_days : ℚ
  mean_motion : ℚ
  period_minutes : ℚ
  eccentricity : ℚ
  inclination : ℚ
  objType : String
  tle_line1 : String
  tle_line2 : String
deriving DecidableEq, Repr

/-- The body of the `try` block (lines 120-170): field extraction, numeric
conversion, epoch reconstruction and derived attributes for one
(name, line1, line2) triplet.  `none` models a caught exception. -/
def parse_triplet (nameRaw l1Raw l2Raw : List Char) : Option Satellite :=
  let name := pyStrip nameRaw
  let line1 := pyStrip l1Raw
  let line2 := pyStrip l2Raw
  let norad := pyStrip (pySlice line1 2 7)
  let intDes := pyStrip (pySlice line1 9 17)
  match pyInt (pySlice line1 18 20) with
  | none => none
  | some ey =>
    let year := resolveYear ey
    match pyFloat (pySlice line1 20 32) with
    | none => none
    | some eday =>
      if epochOk year eday then
        match pyFloat (pySlice line2 52 63) with
        | none => none
        | some mm =>
          let period := if 0 < mm then 1440 / mm else 0
          match pyFloat ('0' :: '.' :: pySlice line2 26 33) with
          | none => none
          | some ecc =>
            match pyFloat (pySlice line2 8 16) with
            | none => none
            | some incl =>
              if mm = 0 then none
              else
                some { name := String.mk name
                       norad_id := String.mk norad
                       int_designator := String.mk intDes
                       epoch_days := epochDays year eday
                       mean_motion := mm
                       period_minutes := period
                       eccentricity := ecc
                       inclination := incl
                       objType := object_class name
                       tle_line1 := String.mk line1
                       tle_line2 := String.mk line2 }
      else none

/-- The grouping loop of lines 113-172: three lines at a time, a failed
triplet contributes nothing, a dangling partial group is dropped. -/
def parse_lines : List (List Char) → List Satellite
  | n :: l1 :: l2 :: rest =>
    (match parse_triplet n l1 l2 with
     | some s => [s]
     | none => []) ++ parse_lines rest
  | _ => []

/-- `parse_tle_data` (lines 100-174): strip the whole text, split on
newlines, parse in groups of three. -/
def parse_tle_data (tle : String) : List Satellite :=
  parse_lines (splitNl (pyStrip tle.data))

/-- The lines of the raw input as the source sees them
(`tle_data.strip().split('\n')`), for stating claims about original lines. -/
def input_lines (tle : String) : List String :=
  (splitNl (pyStrip tle.data)).map String.mk

/-- Triplet grouping by itself, for the "exactly the valid triplets" claim. -/
def chunk3 : List (List Char) → List (List Char × List Char × List Char)
  | n :: l1 :: l2 :: rest => (n, l1, l2) :: chunk3 rest
  | _ => []

/-- Line 153 of the source:
`semi_major_axis = (8681663.0 / (mean_motion * 2 * 3.14159 / 86400.0) ** 2) ** (1/3)`,
idealised over `ℝ` (the literal `3.14159` is the written rational, the outer
power is `Real.rpow` at exactly `1/3`). -/
noncomputable def semi_major_axis (mm : ℚ) : ℝ :=
  (8681663 / ((mm : ℝ) * 2 * 3.14159 / 86400) ^ (2 : ℕ)) ^ ((1 : ℝ) / 3)

/-- Line 154: `altitude = semi_major_axis / 1000.0 - 6371.0`. -/
noncomputable def altitude (mm : ℚ) : ℝ :=
  semi_major_axis mm / 1000 - 6371

/-- The `"altitude"` entry of a parsed satellite dictionary, as a function of
the stored mean motion. -/
noncomputable def sat_altitude (s : Satellite) : ℝ :=
  altitude s.mean_motion

/-- The `country_codes` table of `to_space_object` (lines 203-213), in the
source's (Python 3 insertion-preserving) order. -/
def country_codes : List (String × String) :=
  [("US", "USA"), ("CIS", "Russia"), ("PRC", "China"), ("ESA", "ESA"),
   ("FR", "France"), ("JP", "Japan"), ("IN", "India"), ("CA", "Canada"),
   ("UK", "UK")]

/-- The country loop of lines 217-222: start from `"Unknown"`, take the first
code with `int_des and code in int_des`. -/
def country_of (intDes : String) : String :=
  match country_codes.find? (fun p => !intDes.data.isEmpty && containsSub intDes.data p.1.data) with
  | some p => p.2
  | none => "Unknown"

/-- Stated from the spec's words, for the refinement comparison in C5: check
the designator against the table entries in the documented order, first
substring match wins, otherwise `"Unknown"` (no emptiness guard). -/
def country_spec (intDes : String) : String :=
  match country_codes.find? (fun p => containsSub intDes.data p.1.data) with
  | some p => p.2
  | none => "Unknown"

/-- Lines 229-233: `risk_level = "low"`, then `"high"` below 500,
else `"medium"` below 800. -/
noncomputable def risk_level (alt : ℝ) : String :=
  if alt < 500 then "high" else if alt < 800 then "medium" else "low"

/-- Banker's rounding to an integer (Python `round` tie behaviour). -/
def half_even_q (q : ℚ) : Int :=
  if q - ⌊q⌋ < 1/2 then ⌊q⌋
  else if (1 : ℚ)/2 < q - ⌊q⌋ then ⌊q⌋ + 1
  else if ⌊q⌋ % 2 = 0 then ⌊q⌋ else ⌊q⌋ + 1

/-- Python `round(q, 1)` on the exact-rational idealisation. -/
def py_round1_q (q : ℚ) : ℚ :=
  (half_even_q (q * 10) : ℚ) / 10

/-- Banker's rounding to an integer over `ℝ`. -/
noncomputable def half_even_r (x : ℝ) : Int :=
  if x - ⌊x⌋ < 1/2 then ⌊x⌋
  else if (1 : ℝ)/2 < x - ⌊x⌋ then ⌊x⌋ + 1
  else if ⌊x⌋ % 2 = 0 then ⌊x⌋ else ⌊x⌋ + 1

/-- Python `round(x, 1)` over `ℝ`. -/
noncomputable def py_round1_r (x : ℝ) : ℝ :=
  (half_even_r (x * 10) : ℤ) / 10

/-- The catalog entity built by `to_space_object` (lines 236-248).  The
`launchDate` ISO date string is represented by its day ordinal, `lastUpdate`
(`datetime.now()`) by the build instant passed in as a parameter. -/
structure SpaceObject where
  id : String
  name : String
  objType : String
  country : String
  launchDate : Int
  altitude : ℝ
  inclination : ℚ
  period : ℚ
  status : String
  riskLevel : String
  lastUpdate : ℚ

/-- `to_space_object` (lines 193-250). -/
noncomputable def to_space_object (s : Satellite) (now : ℚ) : SpaceObject :=
  { id := if s.objType = "satellite" then "SAT-" ++ s.norad_id else "DEB-" ++ s.norad_id
    name := s.name
    objType := s.objType
    country := country_of s.int_designator
    launchDate := ⌊s.epoch_days⌋
    altitude := py_round1_r (sat_altitude s)
    inclination := py_round1_q s.inclination
    period := py_round1_q (s.period_minutes / 60)
    status := if s.objType = "satellite" then "active" else "inactive"
    riskLevel := risk_level (sat_altitude s)
    lastUpdate := now }

/-! ### Concrete fixtures

A well-formed TLE triplet for ISS (ZARYA) and variants of its second line:
`l1Good` has the epoch fields `"24"` / `"001.50000000"` at columns [18:20) and
[20:32); `l2Good` carries inclination `" 51.6416"` at [8:16), eccentricity
digits `"0006703"` at [26:33) and mean motion `"15.50000000"` at [52:63). -/

def issName : String := "ISS (ZARYA)"

def l1Good : String := "1 25544U 98067A   24001.50000000"

def l2Good : String := "2 25544  51.6416 247.4627 0006703 130.5360 325.0288 15.50000000"

/-- `l2Good` with the mean-motion columns all zero. -/
def l2Zero : String := "2 25544  51.6416 247.4627 0006703 130.5360 325.0288 00000000000"

/-- `l2Good` with a negative mean-motion field. -/
def l2Neg : String := "2 25544  51.6416 247.4627 0006703 130.5360 325.0288 -15.5000000"

/-- `l2Good` cut to 53 characters: the truncated mean-motion field is `"0"`. -/
def l2Short53 : String := "2 25544  51.6416 247.4627 0006703 130.5360 325.0288 0"

/-- `l2Good` cut to 54 characters: the truncated mean-motion field is `"15"`. -/
def l2Short54 : String := "2 25544  51.6416 247.4627 0006703 130.5360 325.0288 15"

/-- `l2Good` truncated to 10 characters (the spec's malformed-triplet example). -/
def l2Trunc10 : String := "2 25544  5"

/-- The record `parse_tle_data` produces for the good triplet. -/
def satGood : Satellite :=
  { name := "ISS (ZARYA)"
    norad_id := "25544"
    int_designator := "98067A"
    epoch_days := 1477771/2
    mean_motion := 31/2
    period_minutes := 2880/31
    eccentricity := 6703/10000000
    inclination := 32276/625
    objType := "satellite"
    tle_line1 := l1Good
    tle_line2 := l2Good }

/-- The record for the negative-mean-motion variant. -/
def satNeg : Satellite :=
  { satGood with mean_motion := -31/2, period_minutes := 0, tle_line2 := l2Neg }


/-! ### Named inputs used by the claim theorems -/

/-- A single well-formed triplet. -/
def goodInput : String := issName ++ "\n" ++ l1Good ++ "\n" ++ l2Good

/-- The good triplet with a trailing blank on its `line1`. -/
def c2Input : String := issName ++ "\n" ++ l1Good ++ " \n" ++ l2Good

/-- A zero-mean-motion triplet alone. -/
def c1Input : String := issName ++ "\n" ++ l1Good ++ "\n" ++ l2Zero

/-- A zero-mean-motion triplet followed by a valid one. -/
def c1SkipInput : String :=
  "AAA\n" ++ l1Good ++ "\n" ++ l2Zero ++ "\nGOOD\n" ++ l1Good ++ "\n" ++ l2Good

/-- Valid, malformed (line2 cut to 10 characters), valid. -/
def c4Input : String :=
  "ALPHA\n" ++ l1Good ++ "\n" ++ l2Good ++ "\nBETA\n" ++ l1Good ++ "\n" ++ l2Trunc10 ++
    "\nCHARLIE\n" ++ l1Good ++ "\n" ++ l2Good

/-- Triplet whose 53-character line2 truncates the mean-motion field to `"0"`. -/
def c10Short : String := "TEN\n" ++ l1Good ++ "\n" ++ l2Short53

/-- Triplet whose 54-character line2 truncates the mean-motion field to `"15"`. -/
def c10Ok : String := "TEN\n" ++ l1Good ++ "\n" ++ l2Short54

/-! ### Helper lemmas -/

theorem parse_lines_eq_filterMap :
    ∀ ls : List (List Char),
      parse_lines ls = (chunk3 ls).filterMap (fun t => parse_triplet t.1 t.2.1 t.2.2)
  | [] => rfl
  | [_] => rfl
  | [_, _] => rfl
  | n :: l1 :: l2 :: rest => by
    rw [parse_lines, chunk3, List.filterMap_cons, ← parse_lines_eq_filterMap rest]
    cases parse_triplet n l1 l2 <;> rfl

theorem parse_triplet_fields (n l1 l2 : List Char) (s : Satellite)
    (h : parse_triplet n l1 l2 = some s) :
    s.objType = object_class (pyStrip n) ∧
      s.tle_line1 = String.mk (pyStrip l1) ∧ s.tle_line2 = String.mk (pyStrip l2) ∧
      (s.mean_motion ≤ 0 → s.period_minutes = 0) := by
  simp only [parse_triplet] at h
  repeat' split at h
  any_goals exact Option.noConfusion h
  all_goals obtain rfl := Option.some.inj h
  all_goals refine ⟨rfl, rfl, rfl, fun hle => ?_⟩
  all_goals first
    | rfl
    | (rename_i hpos; exact absurd hpos (not_lt.mpr hle))

theorem leadsWith_iff :
    ∀ needle hay : List Char, leadsWith needle hay = true ↔ ∃ rest, hay = needle ++ rest := by
  intro needle
  induction needle with
  | nil => intro hay; simp [leadsWith]
  | cons a as ih =>
    intro hay
    cases hay with
    | nil => simp [leadsWith]
    | cons b bs =>
      simp only [leadsWith, Bool.and_eq_true, decide_eq_true_eq, List.cons_append,
        List.cons.injEq, ih bs]
      constructor
      · rintro ⟨rfl, rest, rfl⟩; exact ⟨rest, rfl, rfl⟩
      · rintro ⟨rest, rfl, rfl⟩; exact ⟨rfl, rest, rfl⟩

theorem containsSub_iff :
    ∀ hay needle : List Char,
      containsSub hay needle = true ↔ ∃ pre post, hay = pre ++ needle ++ post := by
  intro hay
  induction hay with
  | nil =>
    intro needle
    simp only [containsSub, List.isEmpty_iff]
    constructor
    · rintro rfl; exact ⟨[], [], rfl⟩
    · rintro ⟨pre, post, h⟩
      obtain ⟨h1, -⟩ := List.append_eq_nil.mp h.symm
      exact (List.append_eq_nil.mp h1).2
  | cons c rest ih =>
    intro needle
    simp only [containsSub, Bool.or_eq_true, leadsWith_iff, ih]
    constructor
    · rintro (⟨r, hr⟩ | ⟨pre, post, hp⟩)
      · exact ⟨[], r, by simpa using hr⟩
      · exact ⟨c :: pre, post, by simp [hp]⟩
    · rintro ⟨pre, post, h⟩
      cases pre with
      | nil => exact Or.inl ⟨post, by simpa using h⟩
      | cons p ps =>
        refine Or.inr ⟨ps, post, ?_⟩
        simp only [List.cons_append] at h
        exact (List.cons.inj h).2

/-! ### Claim theorems -/

/-- C7: the two-digit epoch year `y` resolves to `2000 + y` when `y < 57` and
to `1900 + y` otherwise; in particular `"24" → 2024`, `"99" → 1999`,
`"56" → 2056` and `"57" → 1957`. -/
theorem epoch_year_pivot :
    (∀ y : Int, y < 57 → resolveYear y = 2000 + y) ∧
      (∀ y : Int, 57 ≤ y → resolveYear y = 1900 + y) ∧
      (pyInt "24".data = some 24 ∧ resolveYear 24 = 2024) ∧
      (pyInt "99".data = some 99 ∧ resolveYear 99 = 1999) ∧
      (pyInt "56".data = some 56 ∧ resolveYear 56 = 2056) ∧
      (pyInt "57".data = some 57 ∧ resolveYear 57 = 1957) :=
  ⟨fun y h => by rw [resolveYear, if_pos h, Int.add_comm],
   fun y h => by rw [resolveYear, if_neg (not_lt.mpr h), Int.add_comm],
   ⟨by decide, by decide⟩, ⟨by decide, by decide⟩, ⟨by decide, by decide⟩,
   ⟨by decide, by decide⟩⟩

/-- Witness for C7 at the pivot boundary years 24 and 57. -/
theorem epoch_year_pivot_witness :
    resolveYear 24 = 2000 + 24 ∧ resolveYear 57 = 1900 + 57 :=
  ⟨epoch_year_pivot.1 24 (by decide), epoch_year_pivot.2.1 57 (by decide)⟩

/-- C9: `parse_tle_data` (parsing followed by attribute derivation) is a pure
function of its input text: equal inputs give equal record lists. -/
theorem parse_deterministic :
    ∀ s t : String, s = t → parse_tle_data s = parse_tle_data t :=
  fun _ _ h => h ▸ rfl

/-- Witness for C9 on a concrete input. -/
theorem parse_deterministic_witness :
    parse_tle_data goodInput = parse_tle_data goodInput :=
  parse_deterministic goodInput goodInput rfl

/-- C6: `riskLevel` is computed from the altitude alone: below 500 `"high"`,
from 500 up to below 800 `"medium"`, from 800 on `"low"`; the boundary values
500 and 800 give `"medium"` and `"low"`. -/
theorem risk_level_thresholds :
    (∀ s now, (to_space_object s now).riskLevel = risk_level (sat_altitude s)) ∧
      (∀ a : ℝ, a < 500 → risk_level a = "high") ∧
      (∀ a : ℝ, 500 ≤ a → a < 800 → risk_level a = "medium") ∧
      (∀ a : ℝ, 800 ≤ a → risk_level a = "low") ∧
      risk_level 500 = "medium" ∧ risk_level 800 = "low" := by
  refine ⟨fun s now => rfl, fun a h => ?_, fun a h1 h2 => ?_, fun a h => ?_, ?_, ?_⟩
  · rw [risk_level, if_pos h]
  · rw [risk_level, if_neg (not_lt.mpr h1), if_pos h2]
  · rw [risk_level, if_neg (not_lt.mpr (by linarith)), if_neg (not_lt.mpr h)]
  · rw [risk_level, if_neg (by norm_num), if_pos (by norm_num)]
  · rw [risk_level, if_neg (by norm_num), if_neg (by norm_num)]

/-- Witness for C6 at one interior point of each risk band. -/
theorem risk_level_thresholds_witness :
    risk_level 499 = "high" ∧ risk_level 650 = "medium" ∧ risk_level 900 = "low" :=
  ⟨risk_level_thresholds.2.1 499 (by norm_num),
   risk_level_thresholds.2.2.1 650 (by norm_num) (by norm_num),
   risk_level_thresholds.2.2.2.1 900 (by norm_num)⟩

/-- C5: the catalog country is the first entry of the ordered table
US, CIS, PRC, ESA, FR, JP, IN, CA, UK whose code is a substring of the
international designator, and `"Unknown"` when none is: the source's loop
(`country_of`, with its emptiness guard) agrees with the spec-worded scan
(`country_spec`), `"98067A"` matches nothing, a designator containing
`"US"` gives `"USA"`, and one containing both `"CA"` and `"UK"` resolves to
the earlier table entry `"Canada"`. -/
theorem country_first_match :
    (∀ s now, (to_space_object s now).country = country_of s.int_designator) ∧
      (∀ d : String, country_of d = country_spec d) ∧
      country_of "98067A" = "Unknown" ∧
      country_of "1998-067US" = "USA" ∧
      country_of "UKCA" = "Canada" := by
  refine ⟨fun s now => rfl, fun d => ?_, by decide, by decide, by decide⟩
  rw [country_of, country_spec]
  cases hd : d.data with
  | nil => rfl
  | cons c cs => simp

/-- C8: a record's `objectClass` is `"debris"` exactly when the (stripped)
name contains one of the tokens `"deb"`, `"debris"`, `"r/b"`, `"rocket"` as a
substring of its lower-cased form, and `"satellite"` otherwise; in particular
`"COSMOS 2251 DEBRIS"` is debris and `"ISS (ZARYA)"` is a satellite. -/
theorem object_class_token_match :
    (∀ n l1 l2 s, parse_triplet n l1 l2 = some s → s.objType = object_class (pyStrip n)) ∧
      (∀ nm : List Char,
        (object_class nm = "debris" ↔
          ∃ t ∈ debrisTokens, ∃ pre post, pyLower nm = pre ++ t.data ++ post)) ∧
      (∀ nm : List Char, object_class nm ≠ "debris" → object_class nm = "satellite") ∧
      object_class "COSMOS 2251 DEBRIS".data = "debris" ∧
      object_class "ISS (ZARYA)".data = "satellite" := by
  refine ⟨fun n l1 l2 s h => (parse_triplet_fields n l1 l2 s h).1, fun nm => ?_,
    fun nm h => ?_, by decide, by decide⟩
  · rw [object_class]
    constructor
    · intro h
      have hd : is_debris nm = true := by
        by_contra hc
        rw [if_neg (by simpa using hc)] at h
        exact absurd h (by decide)
      obtain ⟨t, ht, hsub⟩ := List.any_eq_true.mp (by simpa [is_debris] using hd)
      exact ⟨t, ht, (containsSub_iff (pyLower nm) t.data).mp hsub⟩
    · rintro ⟨t, ht, pre, post, hsplit⟩
      have hd : is_debris nm = true := by
        rw [is_debris]
        exact List.any_eq_true.mpr
          ⟨t, ht, (containsSub_iff (pyLower nm) t.data).mpr ⟨pre, post, hsplit⟩⟩
      rw [if_pos hd]
  · rw [object_class] at h ⊢
    cases hd : is_debris nm with
    | true => rw [if_pos hd] at h; exact absurd rfl h
    | false => rw [if_neg (by simp [hd])]

/-- Witness for C8: the good triplet's record carries the classifier's value,
and a name with no token classifies as `"satellite"`. -/
theorem object_class_token_match_witness :
    satGood.objType = object_class (pyStrip issName.data) ∧
      object_class "ISS (ZARYA)".data = "satellite" :=
  ⟨object_class_token_match.1 issName.data l1Good.data l2Good.data satGood
      (by with_unfolding_all rfl),
   object_class_token_match.2.2.1 "ISS (ZARYA)".data (by decide)⟩

/-- C2 counterexample: on an input whose second line ends in a blank, the
produced record's `tle_line1` is the stripped line, not the original second
input line: `rawLine1` is not retained verbatim. -/
theorem raw_lines_not_verbatim :
    (input_lines c2Input).get? 1 = some (l1Good ++ " ") ∧
      (parse_tle_data c2Input).map (fun s => s.tle_line1) = [l1Good] ∧
      l1Good ≠ l1Good ++ " " := by
  refine ⟨by with_unfolding_all rfl, by with_unfolding_all rfl, by decide⟩

/-- C2 amended: for every successfully parsed triplet, `rawLine1`/`rawLine2`
are the second and third input lines of the group after stripping leading and
trailing whitespace (so they are verbatim only for lines with none). -/
theorem raw_lines_stripped :
    ∀ n l1 l2 s, parse_triplet n l1 l2 = some s →
      s.tle_line1 = String.mk (pyStrip l1) ∧ s.tle_line2 = String.mk (pyStrip l2) :=
  fun n l1 l2 s h =>
    ⟨(parse_triplet_fields n l1 l2 s h).2.1, (parse_triplet_fields n l1 l2 s h).2.2.1⟩

/-- Witness for C2 amended, on the good triplet. -/
theorem raw_lines_stripped_witness :
    satGood.tle_line1 = String.mk (pyStrip l1Good.data) ∧
      satGood.tle_line2 = String.mk (pyStrip l2Good.data) :=
  raw_lines_stripped issName.data l1Good.data l2Good.data satGood (by with_unfolding_all rfl)

/-- C4: the parser is total over the raw text and yields exactly the triplets
whose extraction succeeds: `parse_tle_data` equals a `filterMap` of
`parse_triplet` over the groups of three lines, a failed head triplet
contributes nothing while parsing continues on the remaining lines, and on a
concrete valid/malformed/valid input exactly the two valid records survive. -/
theorem parser_skips_invalid_triplets :
    (∀ tle : String,
        parse_tle_data tle =
          (chunk3 (splitNl (pyStrip tle.data))).filterMap
            (fun t => parse_triplet t.1 t.2.1 t.2.2)) ∧
      (∀ n l1 l2 rest, parse_lines (n :: l1 :: l2 :: rest) =
          (parse_triplet n l1 l2).toList ++ parse_lines rest) ∧
      (parse_tle_data c4Input).map (fun s => s.name) = ["ALPHA", "CHARLIE"] := by
  refine ⟨fun tle => parse_lines_eq_filterMap _, fun n l1 l2 rest => ?_,
    by with_unfolding_all rfl⟩
  rw [parse_lines]
  cases parse_triplet n l1 l2 <;> rfl

/-- C1 counterexample: on a triplet whose mean-motion field parses to 0 the
semi-major-axis division raises (caught by the triplet handler), so no record
is produced at all — while the identical triplet with a positive mean motion
does produce one. -/
theorem zero_mean_motion_drops_record :
    pyFloat (pySlice l2Zero.data 52 63) = some 0 ∧
      parse_tle_data c1Input = [] ∧ parse_tle_data goodInput = [satGood] :=
  ⟨by with_unfolding_all rfl, by with_unfolding_all rfl, by with_unfolding_all rfl⟩

/-- C1 amended: a produced record with `meanMotion ≤ 0` (only possible for a
negative value) has `periodMinutes = 0` but its derived altitude is that of
the corresponding positive mean motion, not zero; a mean-motion field parsing
to exactly 0 makes the division raise, so that triplet yields no record,
without aborting the parse of the rest of the input. -/
theorem degenerate_mean_motion :
    (∀ n l1 l2 s, parse_triplet n l1 l2 = some s →
        s.mean_motion ≤ 0 → s.period_minutes = 0) ∧
      (∀ n l1 l2, pyFloat (pySlice (pyStrip l2) 52 63) = some 0 →
        parse_triplet n l1 l2 = none) ∧
      (∀ mm : ℚ, altitude (-mm) = altitude mm) ∧
      (parse_tle_data c1SkipInput).map (fun s => s.name) = ["GOOD"] := by
  refine ⟨fun n l1 l2 s h => (parse_triplet_fields n l1 l2 s h).2.2.2,
    fun n l1 l2 h => ?_, fun mm => ?_, by with_unfolding_all rfl⟩
  · simp only [parse_triplet]
    repeat' split
    any_goals rfl
    all_goals simp_all
  · have hc : ((-mm : ℚ) : ℝ) = -(mm : ℝ) := by push_cast; ring
    have hbase : (-(mm : ℝ) * 2 * 3.14159 / 86400) ^ (2 : ℕ) =
        ((mm : ℝ) * 2 * 3.14159 / 86400) ^ (2 : ℕ) := by ring
    rw [altitude, altitude, semi_major_axis, semi_major_axis, hc, hbase]

/-- Witness for C1 amended: the negative-mean-motion record has period 0, the
zero-mean-motion triplet yields no record, and the altitude symmetry at 31/2. -/
theorem degenerate_mean_motion_witness :
    satNeg.period_minutes = 0 ∧
      parse_triplet issName.data l1Good.data l2Zero.data = none ∧
      altitude (-(31/2)) = altitude (31/2) :=
  ⟨degenerate_mean_motion.1 issName.data l1Good.data l2Neg.data satNeg
      (by with_unfolding_all rfl) (by norm_num [satNeg, satGood]),
   degenerate_mean_motion.2.1 issName.data l1Good.data l2Zero.data
      (by with_unfolding_all rfl),
   degenerate_mean_motion.2.2.1 (31/2)⟩

/-- C10 counterexample: a triplet whose line2 is 53 characters (shorter than
the mean-motion end column 63) has every extracted field convert successfully
— the truncated mean-motion field reads `"0"` — yet the triplet is excluded
(by the division error), so exclusion of short lines is not limited to failed
numeric conversions. -/
theorem short_line_drop_without_conversion_failure :
    l2Short53.length = 53 ∧
      pyInt (pySlice l1Good.data 18 20) = some 24 ∧
      pyFloat (pySlice l1Good.data 20 32) = some (3/2) ∧
      pyFloat (pySlice l2Short53.data 52 63) = some 0 ∧
      pyFloat ('0' :: '.' :: pySlice l2Short53.data 26 33) = some (6703/10000000) ∧
      pyFloat (pySlice l2Short53.data 8 16) = some (32276/625) ∧
      parse_tle_data c10Short = [] :=
  ⟨by decide, by decide, by with_unfolding_all rfl, by with_unfolding_all rfl,
   by with_unfolding_all rfl, by with_unfolding_all rfl, by with_unfolding_all rfl⟩

/-- C10 amended: truncation is silent — a 54-character line2 still yields a
record whose mean motion comes from the truncated field — and a triplet is
excluded only when a field fails numeric conversion, the epoch arithmetic
leaves the `datetime` range, or the converted mean motion is exactly 0
(division error). -/
theorem truncated_fields_still_parse :
    ((parse_tle_data c10Ok).map (fun s => s.mean_motion) = [15] ∧
        l2Short54.length = 54) ∧
      (∀ n l1 l2, parse_triplet n l1 l2 = none →
        pyInt (pySlice (pyStrip l1) 18 20) = none ∨
        pyFloat (pySlice (pyStrip l1) 20 32) = none ∨
        (∃ ey eday, pyInt (pySlice (pyStrip l1) 18 20) = some ey ∧
          pyFloat (pySlice (pyStrip l1) 20 32) = some eday ∧
          epochOk (resolveYear ey) eday = false) ∨
        pyFloat (pySlice (pyStrip l2) 52 63) = none ∨
        pyFloat ('0' :: '.' :: pySlice (pyStrip l2) 26 33) = none ∨
        pyFloat (pySlice (pyStrip l2) 8 16) = none ∨
        pyFloat (pySlice (pyStrip l2) 52 63) = some 0) := by
  refine ⟨⟨by with_unfolding_all rfl, by decide⟩, fun n l1 l2 h => ?_⟩
  cases h1 : pyInt (pySlice (pyStrip l1) 18 20) with
  | none => exact Or.inl rfl
  | some ey =>
    cases h2 : pyFloat (pySlice (pyStrip l1) 20 32) with
    | none => exact Or.inr (Or.inl rfl)
    | some eday =>
      cases h3 : epochOk (resolveYear ey) eday with
      | false => exact Or.inr (Or.inr (Or.inl ⟨ey, eday, rfl, rfl, h3⟩))
      | true =>
        cases h4 : pyFloat (pySlice (pyStrip l2) 52 63) with
        | none => exact Or.inr (Or.inr (Or.inr (Or.inl rfl)))
        | some mm =>
          by_cases h5 : mm = 0
          · exact Or.inr (Or.inr (Or.inr (Or.inr (Or.inr (Or.inr (by rw [h5]))))))
          · cases h6 : pyFloat ('0' :: '.' :: pySlice (pyStrip l2) 26 33) with
            | none => exact Or.inr (Or.inr (Or.inr (Or.inr (Or.inl rfl))))
            | some ecc =>
              cases h7 : pyFloat (pySlice (pyStrip l2) 8 16) with
              | none => exact Or.inr (Or.inr (Or.inr (Or.inr (Or.inr (Or.inl rfl)))))
              | some incl =>
                exfalso
                rw [parse_triplet] at h
                simp only [h1, h2, h3, h4, h5, h6, h7, if_true, if_false] at h
                exact Option.noConfusion h

/-- Witness for C10 amended: instantiating the exclusion characterisation on
the dropped 53-character-line2 triplet. -/
theorem truncated_fields_still_parse_witness :
    pyInt (pySlice (pyStrip l1Good.data) 18 20) = none ∨
      pyFloat (pySlice (pyStrip l1Good.data) 20 32) = none ∨
      (∃ ey eday, pyInt (pySlice (pyStrip l1Good.data) 18 20) = some ey ∧
        pyFloat (pySlice (pyStrip l1Good.data) 20 32) = some eday ∧
        epochOk (resolveYear ey) eday = false) ∨
      pyFloat (pySlice (pyStrip l2Short53.data) 52 63) = none ∨
      pyFloat ('0' :: '.' :: pySlice (pyStrip l2Short53.data) 26 33) = none ∨
      pyFloat (pySlice (pyStrip l2Short53.data) 8 16) = none ∨
      pyFloat (pySlice (pyStrip l2Short53.data) 52 63) = some 0 :=
  truncated_fields_still_parse.2 "TEN".data l1Good.data l2Short53.data
    (by with_unfolding_all rfl)

/-- C3 counterexample: the source converts mean motion with the literal
`3.14159`, not `2π`: at mean motion 16 the claimed-`π` formula gives a
strictly different (smaller) semi-major axis. -/
theorem sma_uses_literal_not_pi :
    semi_major_axis 16 ≠
      (8681663 / ((16 : ℝ) * 2 * Real.pi / 86400) ^ (2 : ℕ)) ^ ((1 : ℝ) / 3) := by
  have hlt : (3.14159 : ℝ) < Real.pi := lt_trans (by norm_num) Real.pi_gt_d6
  have ha : (0 : ℝ) < (16 : ℝ) * 2 * 3.14159 / 86400 := by norm_num
  have hb : (0 : ℝ) < (16 : ℝ) * 2 * Real.pi / 86400 := by
    have := Real.pi_pos; positivity
  have hab : (16 : ℝ) * 2 * 3.14159 / 86400 < (16 : ℝ) * 2 * Real.pi / 86400 := by
    apply div_lt_div_of_pos_right _ (by norm_num)
    nlinarith [hlt]
  have hsq : ((16 : ℝ) * 2 * 3.14159 / 86400) ^ (2 : ℕ) <
      ((16 : ℝ) * 2 * Real.pi / 86400) ^ (2 : ℕ) :=
    pow_lt_pow_left₀ hab (le_of_lt ha) (by norm_num)
  have hdiv : (8681663 : ℝ) / ((16 : ℝ) * 2 * Real.pi / 86400) ^ (2 : ℕ) <
      8681663 / ((16 : ℝ) * 2 * 3.14159 / 86400) ^ (2 : ℕ) :=
    div_lt_div_of_pos_left (by norm_num) (pow_pos ha 2) hsq
  have hmono := Real.rpow_lt_rpow
    (le_of_lt (div_pos (by norm_num) (pow_pos hb 2))) hdiv (by norm_num : (0:ℝ) < 1/3)
  have h16 : ((16 : ℚ) : ℝ) = 16 := by norm_num
  rw [semi_major_axis, h16]
  exact (ne_of_lt hmono).symm

/-- C3 amended: for positive mean motion the semi-major axis is
`(GM / (mm · (2·3.14159/86400))²)^(1/3)` with `GM = 8681663.0` — the rev/day
to rad/sec factor uses the literal `3.14159`, not `π` — and
`altitudeKm = semiMajorAxisMeters/1000 − 6371`. -/
theorem sma_formula :
    ∀ mm : ℚ, 0 < mm →
      semi_major_axis mm =
          (8681663 / ((mm : ℝ) * (2 * 3.14159 / 86400)) ^ (2 : ℕ)) ^ ((1 : ℝ) / 3) ∧
        altitude mm = semi_major_axis mm / 1000 - 6371 := by
  intro mm h
  constructor
  · have hbase : ((mm : ℝ) * 2 * 3.14159 / 86400) ^ (2 : ℕ) =
        ((mm : ℝ) * (2 * 3.14159 / 86400)) ^ (2 : ℕ) := by ring
    rw [semi_major_axis, hbase]
  · rfl

/-- Witness for C3 amended at mean motion 16. -/
theorem sma_formula_witness :
    (0 : ℚ) < 16 ∧
      semi_major_axis 16 =
          (8681663 / (((16 : ℚ) : ℝ) * (2 * 3.14159 / 86400)) ^ (2 : ℕ)) ^ ((1 : ℝ) / 3) ∧
        altitude 16 = semi_major_axis 16 / 1000 - 6371 :=
  ⟨by norm_num, (sma_formula 16 (by norm_num)).1, (sma_formula 16 (by norm_num)).2⟩
